import Mathlib

/-!
Verification of the request-dispatcher exercises: a shallow embedding of
the Python sources (ej1a1.py, ej1a3.py, ej1b3.py, ej1c2.py, ej1d1.py)
together with proofs of the behavioural claims made by the specification.

The JSON layer mirrors the observable behaviour of json.dumps with its
default options (item separator comma-space, key separator colon-space,
ensure_ascii escaping of everything outside the printable ASCII range,
including surrogate-pair escapes for astral characters), and a standalone
decoder is provided so that round-trip claims are meaningful.
-/

/-- A JSON scalar value as produced by the handlers: a string or a
natural-number literal (the only number the sources emit is 404). -/
inductive JVal where
  | jstr : String → JVal
  | jnum : Nat → JVal
deriving DecidableEq

/-- Lower-case hexadecimal digit character for a value below 16. -/
def hexDig (n : Nat) : Char :=
  if n < 10 then Char.ofNat (48 + n) else Char.ofNat (87 + n)

/-- Four lower-case hex digits of a value below 65536, most significant first. -/
def hex4 (n : Nat) : List Char :=
  [hexDig (n / 4096 % 16), hexDig (n / 256 % 16), hexDig (n / 16 % 16), hexDig (n % 16)]

/-- Escape of a single character, following the json.dumps ensure_ascii
encoder: quote and backslash get two-character escapes, the five control
characters with short forms use them, printable ASCII passes through,
every other character below 0x10000 becomes a backslash-u escape, and
astral characters become a UTF-16 surrogate pair of escapes. -/
def escChar (c : Char) : List Char :=
  if c = '"' then ['\\', '"']
  else if c = '\\' then ['\\', '\\']
  else if c = '\x08' then ['\\', 'b']
  else if c = '\x09' then ['\\', 't']
  else if c = '\x0a' then ['\\', 'n']
  else if c = '\x0c' then ['\\', 'f']
  else if c = '\x0d' then ['\\', 'r']
  else if 32 ≤ c.toNat ∧ c.toNat ≤ 126 then [c]
  else if c.toNat < 65536 then '\\' :: 'u' :: hex4 c.toNat
  else ('\\' :: 'u' :: hex4 (55296 + (c.toNat - 65536) / 1024)) ++
       ('\\' :: 'u' :: hex4 (56320 + (c.toNat - 65536) % 1024))

/-- Escape of a character sequence. -/
def escList : List Char → List Char
  | [] => []
  | c :: rest => escChar c ++ escList rest

/-- Decimal digits of a natural number, with explicit fuel so that the
definition is structural; the fuel is always sufficient at the call site. -/
def natToCharsAux : Nat → Nat → List Char
  | 0, _ => []
  | f + 1, n =>
    if n < 10 then [Char.ofNat (48 + n)]
    else natToCharsAux f (n / 10) ++ [Char.ofNat (48 + n % 10)]

/-- Decimal digits of a natural number, as json.dumps prints an int. -/
def natToChars (n : Nat) : List Char :=
  natToCharsAux (n + 1) n

/-- Characters of the json.dumps encoding of a scalar value. -/
def encodeJVal : JVal → List Char
  | .jstr s => '"' :: (escList s.data ++ ['"'])
  | .jnum n => natToChars n

/-- Characters of the member list of a json.dumps object body, including
the closing brace; json.dumps separates members with comma-space and key
from value with colon-space. -/
def encodeMembers : List (String × JVal) → List Char
  | [] => ['\x7d']
  | [(k, v)] => '"' :: (escList k.data ++ '"' :: ':' :: ' ' :: (encodeJVal v ++ ['\x7d']))
  | (k, v) :: rest =>
      '"' :: (escList k.data ++ '"' :: ':' :: ' ' :: (encodeJVal v ++ ',' :: ' ' :: encodeMembers rest))

/-- The json.dumps encoding of an object given as an ordered list of
key/value pairs (Python dicts preserve insertion order). -/
def encodeObj (pairs : List (String × JVal)) : String :=
  ⟨'\x7b' :: encodeMembers pairs⟩

/-- Numeric value of a hexadecimal digit character, accepting both cases. -/
def hexVal (c : Char) : Option Nat :=
  if 48 ≤ c.toNat ∧ c.toNat ≤ 57 then some (c.toNat - 48)
  else if 97 ≤ c.toNat ∧ c.toNat ≤ 102 then some (c.toNat - 87)
  else if 65 ≤ c.toNat ∧ c.toNat ≤ 70 then some (c.toNat - 55)
  else none

/-- Decoded character of a simple (single-letter) escape sequence. -/
def escSimple (e : Char) : Option Char :=
  if e = '"' ∨ e = '\\' ∨ e = '/' then some e
  else if e = 'b' then some '\x08'
  else if e = 't' then some '\x09'
  else if e = 'n' then some '\x0a'
  else if e = 'f' then some '\x0c'
  else if e = 'r' then some '\x0d'
  else none

/-- Value of four hexadecimal digit characters, most significant first. -/
def uVal4 (a b c d : Char) : Option Nat :=
  match hexVal a, hexVal b, hexVal c, hexVal d with
  | some va, some vb, some vc, some vd => some (4096 * va + 256 * vb + 16 * vc + vd)
  | _, _, _, _ => none

/-- Decoder for the low-surrogate backslash-u escape that must follow a
high-surrogate escape: expects a backslash, a u, and four hex digits
whose value lies in the low-surrogate range. -/
def lowSurrTail : List Char → Option (Nat × List Char)
  | g1 :: g2 :: a2 :: b2 :: c2 :: d2 :: rest4 =>
    if g1 = '\\' ∧ g2 = 'u' then
      match uVal4 a2 b2 c2 d2 with
      | some w => if 56320 ≤ w ∧ w < 57344 then some (w, rest4) else none
      | none => none
    else none
  | _ => none

/-- Decoder for the four hex digits of a backslash-u escape. -/
def uDigits : List Char → Option (Nat × List Char)
  | a :: b :: c :: d :: rest3 =>
    match uVal4 a b c d with
    | some v => some (v, rest3)
    | none => none
  | _ => none

/-- Decoder for one escape sequence, positioned just after the backslash:
returns the decoded character and the remaining input.  A backslash-u
escape carrying a high surrogate must be followed by a backslash-u escape
carrying a low surrogate; the pair is recombined into one scalar value. -/
def escDecode : List Char → Option (Char × List Char)
  | [] => none
  | e :: rest =>
    if e = 'u' then
      match uDigits rest with
      | some (v, rest3) =>
        if v < 55296 ∨ 57344 ≤ v then some (Char.ofNat v, rest3)
        else if v < 56320 then
          match lowSurrTail rest3 with
          | some (w, rest4) =>
            some (Char.ofNat (65536 + (v - 55296) * 1024 + (w - 56320)), rest4)
          | none => none
        else none
      | none => none
    else
      match escSimple e with
      | some ch => some (ch, rest)
      | none => none

/-- Decoder for the body of a JSON string literal, positioned just after
the opening quote; returns the decoded characters together with the input
remaining after the closing quote.  The first argument is fuel bounding
the number of decoded characters; the wrapper below supplies more fuel
than any input can consume. -/
def parseStrBodyF : Nat → List Char → Option (List Char × List Char)
  | 0, _ => none
  | fuel + 1, l =>
    match l with
    | [] => none
    | c :: rest =>
      if c = '"' then some ([], rest)
      else if c = '\\' then
        match escDecode rest with
        | some (ch, rest') => (parseStrBodyF fuel rest').map (fun p => (ch :: p.1, p.2))
        | none => none
      else (parseStrBodyF fuel rest).map (fun p => (c :: p.1, p.2))

/-- Decoder for the body of a JSON string literal with sufficient fuel. -/
def parseStrBody (l : List Char) : Option (List Char × List Char) :=
  parseStrBodyF (l.length + 1) l

/-- Numeric value of a decimal digit character. -/
def digitVal (c : Char) : Nat := c.toNat - 48

/-- Natural number denoted by a list of decimal digit characters. -/
def digitsToNat (l : List Char) : Nat :=
  l.foldl (fun acc c => 10 * acc + digitVal c) 0

/-- Decoder for a JSON scalar value: a string literal or an unsigned
number literal. -/
def parseJVal (l : List Char) : Option (JVal × List Char) :=
  match l with
  | [] => none
  | c :: rest =>
    if c = '"' then
      match parseStrBody rest with
      | some (s, r) => some (JVal.jstr ⟨s⟩, r)
      | none => none
    else if c.isDigit then
      some (JVal.jnum (digitsToNat (List.takeWhile Char.isDigit (c :: rest))),
            List.dropWhile Char.isDigit (c :: rest))
    else none

/-- Skip space characters. -/
def dropSpaces (l : List Char) : List Char :=
  l.dropWhile (fun c => c = ' ')

/-- Decoder for a non-empty member list of a JSON object, positioned just
after the opening brace.  The first argument is fuel bounding the number
of members; the top-level entry point supplies more fuel than any input
can consume. -/
def parseMembers : Nat → List Char → Option (List (String × JVal) × List Char)
  | 0, _ => none
  | f + 1, l =>
    match l with
    | [] => none
    | c :: rest =>
      if c = '"' then
        match parseStrBody rest with
        | some (key, r1) =>
          match r1 with
          | ':' :: r2 =>
            match parseJVal (dropSpaces r2) with
            | some (v, r3) =>
              match r3 with
              | ',' :: r4 =>
                match parseMembers f (dropSpaces r4) with
                | some (more, r5) => some ((⟨key⟩, v) :: more, r5)
                | none => none
              | '\x7d' :: r4 => some ([(⟨key⟩, v)], r4)
              | _ => none
            | none => none
          | _ => none
        | none => none
      else none

/-- Decoder for a complete JSON object document: an opening brace, a
non-empty member list, a closing brace, and nothing after it. -/
def parseObj (s : String) : Option (List (String × JVal)) :=
  match s.data with
  | '\x7b' :: rest =>
    match parseMembers (rest.length + 1) rest with
    | some (pairs, []) => some pairs
    | _ => none
  | _ => none

/-! ### The HTTP request and response model (ej1a3.py and ej1b3.py) -/

/-- An inbound HTTP GET request as seen by the handler: the verbatim
request path, the header list, and the transport-level client address
(host string and port). -/
structure Request where
  path : String
  headers : List (String × String)
  clientAddress : String × Nat
deriving DecidableEq

/-- An HTTP response as assembled by the handler: status code, value of
the Content-Type header it sends, and the body text (written to the wire
as its UTF-8 encoding). -/
structure HResponse where
  status : Nat
  contentType : String
  body : String
deriving DecidableEq

/-- ASCII lower-casing of one character. -/
def lowerChar (c : Char) : Char :=
  if 65 ≤ c.toNat ∧ c.toNat ≤ 90 then Char.ofNat (c.toNat + 32) else c

/-- ASCII lower-casing of a string. -/
def lowerStr (s : String) : String :=
  ⟨s.data.map lowerChar⟩

/-- Case-insensitive header lookup, as the email.message mapping behind
self.headers.get performs it: first entry whose name matches up to ASCII
case. -/
def getHeader (hs : List (String × String)) (name : String) : Option String :=
  (hs.find? (fun p => lowerStr p.1 == lowerStr name)).map (fun p => p.2)

/-- Python truthiness of an optional string: false for None and for the
empty string. -/
def truthyOptStr : Option String → Bool
  | none => false
  | some s => !(s == "")

/-- Helper for pySplit: accumulate the current field until the separator. -/
def splitOnCharAux : List Char → Char → List Char → List (List Char)
  | [], _, acc => [acc.reverse]
  | c :: rest, sep, acc =>
    if c = sep then acc.reverse :: splitOnCharAux rest sep []
    else splitOnCharAux rest sep (c :: acc)

/-- The Python str.split with an explicit one-character separator: always
returns a non-empty list of fields. -/
def pySplit (s : String) (sep : Char) : List String :=
  (splitOnCharAux s.data sep []).map (fun l => ⟨l⟩)

/-- Whitespace as the Python str.strip removes it (ASCII subset). -/
def isPySpace (c : Char) : Bool :=
  c = ' ' ∨ c = '\x09' ∨ c = '\x0a' ∨ c = '\x0d' ∨ c = '\x0b' ∨ c = '\x0c'

/-- The Python str.strip: drop whitespace from both ends. -/
def pyStrip (s : String) : String :=
  ⟨(((s.data.dropWhile isPySpace).reverse).dropWhile isPySpace).reverse⟩

namespace Ej1a3

/-- The client-IP resolver of MyHTTPRequestHandler in ej1a3.py
(the source method is named with a leading underscore): first a truthy
X-Forwarded-For header (first comma-separated field, stripped), then a
truthy X-Real-IP header verbatim, finally the host of client_address. -/
def get_client_ip (r : Request) : String :=
  let xff := getHeader r.headers "X-Forwarded-For"
  if truthyOptStr xff then pyStrip ((pySplit (xff.getD "") ',').headD "")
  else
    let xri := getHeader r.headers "X-Real-IP"
    if truthyOptStr xri then xri.getD ""
    else r.clientAddress.1

/-- The GET dispatcher of MyHTTPRequestHandler in ej1a3.py: the exact
path "/ip" gets a 200 JSON body carrying the resolved client IP, every
other path gets a 404 with the JSON body of a dict with one key error. -/
def do_GET (r : Request) : HResponse :=
  if r.path = "/ip" then
    { status := 200
      contentType := "application/json"
      body := encodeObj [("ip", JVal.jstr (get_client_ip r))] }
  else
    { status := 404
      contentType := "application/json"
      body := encodeObj [("error", JVal.jstr "Not Found")] }

end Ej1a3

namespace Ej1b3

/-- The else branch of do_GET in ej1b3.py (the file contains only this
fragment): a 404 response whose JSON body has the integer code 404 and a
message interpolating the verbatim requested path. -/
def do_GET_else (path : String) : HResponse :=
  { status := 404
    contentType := "application/json"
    body := encodeObj
      [("code", JVal.jnum 404),
       ("message", JVal.jstr ("Recurso " ++ path ++ " no encontrado"))] }

end Ej1b3

/-! ### The plain-text HTTP GET client (ej1a1.py) -/

/-- Outcome of the requests.get call inside get_user_ip: either a raised
transport exception, or a response carrying a status code and a body
text. -/
structure HttpTextResponse where
  status_code : Nat
  text : String
deriving DecidableEq

namespace Ej1a1

/-- The get_user_ip function of ej1a1.py, as a function of the outcome of
its one transport call: the body text on status 200, None on any other
status, and None when the call raised (the except clause catches every
exception). -/
def get_user_ip (result : Except String HttpTextResponse) : Option String :=
  match result with
  | .error _ => none
  | .ok response =>
    if response.status_code = 200 then some response.text else none

end Ej1a1

/-! ### The GBFS station client (ej1c2.py) -/

/-- A station record as the code accesses it through dict.get: each of
the four consulted fields may be absent.  Coordinate values are treated
as an abstract type. -/
structure StationInfo (α : Type) where
  station_id : Option String
  lat : Option α
  lon : Option α
  name : Option String
deriving DecidableEq

/-- The data object returned by get_stations_data, as accessed through
dict.get: the stations key may be absent. -/
structure StationsData (α : Type) where
  stations : Option (List (StationInfo α))
deriving DecidableEq

/-- A cell of a pandas DataFrame as these exercises populate it: a
string, a coordinate value, an integer, or a missing value. -/
inductive Cell (α : Type) where
  | str : String → Cell α
  | num : α → Cell α
  | int : Int → Cell α
  | null : Cell α
deriving DecidableEq

/-- A pandas DataFrame at the level of detail these exercises observe:
its column names in order, and its rows in order. -/
structure DataFrame (α : Type) where
  columns : List String
  rows : List (List (Cell α))
deriving DecidableEq

/-- The pandas DataFrame constructor applied to a list of records that
all share one key set: the columns are the keys of the first record in
their order, and an empty record list yields a frame with no columns,
exactly as pd.DataFrame of an empty list does. -/
def pd_DataFrame_ofRecords {α : Type} (records : List (List (String × Cell α))) : DataFrame α :=
  { columns := match records with
      | [] => []
      | r :: _ => r.map (fun p => p.1)
    rows := records.map (fun r => r.map (fun p => p.2)) }

/-- A cell built from an optional string, as dict.get feeds pandas. -/
def cellOfStrOpt {α : Type} : Option String → Cell α
  | none => Cell.null
  | some s => Cell.str s

/-- A cell built from an optional coordinate value. -/
def cellOfNumOpt {α : Type} : Option α → Cell α
  | none => Cell.null
  | some x => Cell.num x

namespace Ej1c2

/-- The get_station_info function of ej1c2.py: None for missing data, a
defaulted-to-empty stations list that returns None when empty, then the
first station whose station_id field equals the requested id. -/
def get_station_info {α : Type} [DecidableEq α]
    (stations_data : Option (StationsData α)) (station_id : String) :
    Option (StationInfo α) :=
  match stations_data with
  | none => none
  | some d =>
    let stations := d.stations.getD []
    if stations.isEmpty then none
    else stations.find? (fun st => st.station_id == some station_id)

/-- The get_station_coordinates function of ej1c2.py: None for a missing
record or a missing coordinate, otherwise the latitude-longitude pair. -/
def get_station_coordinates {α : Type}
    (station_info : Option (StationInfo α)) : Option (α × α) :=
  match station_info with
  | none => none
  | some s =>
    match s.lat, s.lon with
    | some la, some lo => some (la, lo)
    | _, _ => none

/-- The row record each station contributes in create_stations_dataframe,
in the key order of the dict literal in the source. -/
def stationRecord {α : Type} (st : StationInfo α) : List (String × Cell α) :=
  [("station_id", cellOfStrOpt st.station_id),
   ("latitude", cellOfNumOpt st.lat),
   ("longitude", cellOfNumOpt st.lon),
   ("name", cellOfStrOpt st.name)]

/-- The create_stations_dataframe function of ej1c2.py: None when the
data object is missing or has no stations key, otherwise the DataFrame
of one record per station in list order. -/
def create_stations_dataframe {α : Type}
    (stations_data : Option (StationsData α)) : Option (DataFrame α) :=
  match stations_data with
  | none => none
  | some d =>
    match d.stations with
    | none => none
    | some stations =>
      some (pd_DataFrame_ofRecords (stations.map stationRecord))

end Ej1c2

/-! ### The pybikes wrapper exercise (ej1d1.py) -/

/-- A pybikes station object as crear_dataframe_estaciones reads it: the
five attributes are always present on the object. -/
structure Estacion (α : Type) where
  name : String
  latitude : α
  longitude : α
  bikes : Int
  free : Int
deriving DecidableEq

namespace Ej1d1

/-- The row record each station contributes in crear_dataframe_estaciones,
in the key order of the dict literal in the source. -/
def estacionRecord {α : Type} (e : Estacion α) : List (String × Cell α) :=
  [("name", Cell.str e.name),
   ("latitude", Cell.num e.latitude),
   ("longitude", Cell.num e.longitude),
   ("bikes", Cell.int e.bikes),
   ("free", Cell.int e.free)]

/-- The crear_dataframe_estaciones function of ej1d1.py: a falsy input
(None or the empty list) yields an empty DataFrame that explicitly names
its five columns, a non-empty list yields one row per station. -/
def crear_dataframe_estaciones {α : Type}
    (estaciones : Option (List (Estacion α))) : DataFrame α :=
  match estaciones with
  | none => { columns := ["name", "latitude", "longitude", "bikes", "free"], rows := [] }
  | some [] => { columns := ["name", "latitude", "longitude", "bikes", "free"], rows := [] }
  | some es => pd_DataFrame_ofRecords (es.map estacionRecord)

end Ej1d1

theorem stringMk_data (s : String) : String.mk s.data = s := rfl

theorem charOfNat_toNat (c : Char) : Char.ofNat c.toNat = c := by
  have h : c.toNat.isValidChar := c.valid
  apply Char.eq_of_val_eq
  simp only [Char.ofNat, h, dite_true, Char.ofNatAux]
  apply UInt32.eq_of_toBitVec_eq
  apply BitVec.eq_of_toNat_eq
  simp [Char.toNat, UInt32.toNat]

theorem hexVal_hexDig (m : Nat) : hexVal (hexDig (m % 16)) = some (m % 16) := by
  have h : m % 16 < 16 := Nat.mod_lt _ (by omega)
  generalize m % 16 = k at *
  interval_cases k <;> decide

theorem uVal4_hex4 (n : Nat) (h : n < 65536) :
    uVal4 (hexDig (n / 4096 % 16)) (hexDig (n / 256 % 16))
      (hexDig (n / 16 % 16)) (hexDig (n % 16)) = some n := by
  simp [uVal4, hexVal_hexDig]
  omega

theorem uDigits_hex4 (n : Nat) (h : n < 65536) (rest : List Char) :
    uDigits (hex4 n ++ rest) = some (n, rest) := by
  simp [uDigits, hex4, uVal4_hex4 n h]

theorem lowSurrTail_hex4 (n : Nat) (h1 : 56320 ≤ n) (h2 : n < 57344) (rest : List Char) :
    lowSurrTail ('\\' :: 'u' :: (hex4 n ++ rest)) = some (n, rest) := by
  simp [lowSurrTail, hex4, uVal4_hex4 n (by omega), h1, h2]

theorem escDecode_u_scalar (n : Nat) (h : n < 65536) (hcond : n < 55296 ∨ 57344 ≤ n)
    (rest : List Char) :
    escDecode ('u' :: (hex4 n ++ rest)) = some (Char.ofNat n, rest) := by
  simp [escDecode, uDigits_hex4 n h, hcond]

theorem escDecode_u_pair (n : Nat) (h1 : 65536 ≤ n) (h2 : n < 1114112) (rest : List Char) :
    escDecode ('u' :: (hex4 (55296 + (n - 65536) / 1024) ++
      ('\\' :: 'u' :: (hex4 (56320 + (n - 65536) % 1024) ++ rest)))) =
      some (Char.ofNat n, rest) := by
  have e1 := uDigits_hex4 (55296 + (n - 65536) / 1024) (by omega)
    ('\\' :: 'u' :: (hex4 (56320 + (n - 65536) % 1024) ++ rest))
  have e2 := lowSurrTail_hex4 (56320 + (n - 65536) % 1024) (by omega) (by omega) rest
  have hc1a : ¬(55296 + (n - 65536) / 1024 < 55296) := by omega
  have hc1b : ¬(57344 ≤ 55296 + (n - 65536) / 1024) := by omega
  have hc2 : 55296 + (n - 65536) / 1024 < 56320 := by omega
  have hc4 : 65536 + (n - 65536) / 1024 * 1024 + (n - 65536) % 1024 = n := by omega
  simp [escDecode, e1, e2, hc1a, hc1b, hc2, hc4]

theorem parseStrBodyF_quote (f : Nat) (l : List Char) :
    parseStrBodyF (f + 1) ('"' :: l) = some ([], l) := rfl

theorem parseStrBodyF_plain (f : Nat) (c : Char) (l : List Char)
    (h1 : ¬ c = '"') (h2 : ¬ c = '\\') :
    parseStrBodyF (f + 1) (c :: l) =
      (parseStrBodyF f l).map (fun p => (c :: p.1, p.2)) := by
  simp only [parseStrBodyF]
  rw [if_neg h1, if_neg h2]

theorem parseStrBodyF_esc (f : Nat) (l : List Char) (ch : Char) (rest : List Char)
    (h : escDecode l = some (ch, rest)) :
    parseStrBodyF (f + 1) ('\\' :: l) =
      (parseStrBodyF f rest).map (fun p => (ch :: p.1, p.2)) := by
  simp [parseStrBodyF, h]

theorem escDecode_simple (e ch : Char) (hu : ¬ e = 'u') (h : escSimple e = some ch)
    (rest : List Char) : escDecode (e :: rest) = some (ch, rest) := by
  simp [escDecode, hu, h]

theorem parse_escCharF (c : Char) (f : Nat) (tail : List Char) :
    parseStrBodyF (f + 1) (escChar c ++ tail) =
      (parseStrBodyF f tail).map (fun p => (c :: p.1, p.2)) := by
  have hval : c.toNat < 55296 ∨ (57343 < c.toNat ∧ c.toNat < 1114112) := c.valid
  by_cases h1 : c = '"'
  · subst h1
    rw [show escChar '"' = ['\\', '"'] from rfl, List.cons_append, List.cons_append,
      List.nil_append, parseStrBodyF_esc f _ '"' tail
        (escDecode_simple _ _ (by decide) (by decide) tail)]
  by_cases h2 : c = '\\'
  · subst h2
    rw [show escChar '\\' = ['\\', '\\'] from rfl, List.cons_append, List.cons_append,
      List.nil_append, parseStrBodyF_esc f _ '\\' tail
        (escDecode_simple _ _ (by decide) (by decide) tail)]
  by_cases h3 : c = '\x08'
  · subst h3
    rw [show escChar '\x08' = ['\\', 'b'] from rfl, List.cons_append, List.cons_append,
      List.nil_append, parseStrBodyF_esc f _ '\x08' tail
        (escDecode_simple _ _ (by decide) (by decide) tail)]
  by_cases h4 : c = '\x09'
  · subst h4
    rw [show escChar '\x09' = ['\\', 't'] from rfl, List.cons_append, List.cons_append,
      List.nil_append, parseStrBodyF_esc f _ '\x09' tail
        (escDecode_simple _ _ (by decide) (by decide) tail)]
  by_cases h5 : c = '\x0a'
  · subst h5
    rw [show escChar '\x0a' = ['\\', 'n'] from rfl, List.cons_append, List.cons_append,
      List.nil_append, parseStrBodyF_esc f _ '\x0a' tail
        (escDecode_simple _ _ (by decide) (by decide) tail)]
  by_cases h6 : c = '\x0c'
  · subst h6
    rw [show escChar '\x0c' = ['\\', 'f'] from rfl, List.cons_append, List.cons_append,
      List.nil_append, parseStrBodyF_esc f _ '\x0c' tail
        (escDecode_simple _ _ (by decide) (by decide) tail)]
  by_cases h7 : c = '\x0d'
  · subst h7
    rw [show escChar '\x0d' = ['\\', 'r'] from rfl, List.cons_append, List.cons_append,
      List.nil_append, parseStrBodyF_esc f _ '\x0d' tail
        (escDecode_simple _ _ (by decide) (by decide) tail)]
  by_cases h8 : 32 <= c.toNat /\ c.toNat <= 126
  · have he : escChar c = [c] := by simp [escChar, h1, h2, h3, h4, h5, h6, h7, h8]
    rw [he, List.singleton_append, parseStrBodyF_plain f c tail h1 h2]
  by_cases h9 : c.toNat < 65536
  · have hcond : c.toNat < 55296 \/ 57344 <= c.toNat := by omega
    have he : escChar c = '\\' :: 'u' :: hex4 c.toNat := by
      simp [escChar, h1, h2, h3, h4, h5, h6, h7, h8, h9]
    rw [he, List.cons_append, List.cons_append,
      parseStrBodyF_esc f _ (Char.ofNat c.toNat) tail
        (escDecode_u_scalar c.toNat h9 hcond tail), charOfNat_toNat]
  · have he : escChar c = '\\' :: 'u' :: (hex4 (55296 + (c.toNat - 65536) / 1024) ++
        ('\\' :: 'u' :: hex4 (56320 + (c.toNat - 65536) % 1024))) := by
      simp [escChar, h1, h2, h3, h4, h5, h6, h7, h8, h9]
    rw [he, List.cons_append, List.cons_append, List.append_assoc]
    rw [show (('\\' :: 'u' :: hex4 (56320 + (c.toNat - 65536) % 1024)) ++ tail)
        = '\\' :: 'u' :: (hex4 (56320 + (c.toNat - 65536) % 1024) ++ tail) from by
      simp]
    rw [parseStrBodyF_esc f _ (Char.ofNat c.toNat) tail
        (escDecode_u_pair c.toNat (by omega) (by omega) tail), charOfNat_toNat]

theorem parse_escListF (l : List Char) : ∀ (f : Nat), l.length < f → ∀ (tail : List Char),
    parseStrBodyF f (escList l ++ '"' :: tail) = some (l, tail) := by
  induction l with
  | nil =>
    intro f hf tail
    obtain ⟨f', rfl⟩ : ∃ f', f = f' + 1 := ⟨f - 1, by omega⟩
    rw [escList, List.nil_append, parseStrBodyF_quote]
  | cons c l ih =>
    intro f hf tail
    obtain ⟨f', rfl⟩ : ∃ f', f = f' + 1 := ⟨f - 1, by omega⟩
    rw [escList, List.append_assoc, parse_escCharF,
      ih f' (by simp at hf; omega) tail]
    rfl

theorem escChar_length_pos (c : Char) : 1 ≤ (escChar c).length := by
  unfold escChar
  split_ifs <;> simp [hex4]

theorem escList_length (l : List Char) : l.length ≤ (escList l).length := by
  induction l with
  | nil => simp [escList]
  | cons c l ih =>
    rw [escList, List.length_append, List.length_cons]
    have := escChar_length_pos c
    omega

theorem parse_escList (l tail : List Char) :
    parseStrBody (escList l ++ '"' :: tail) = some (l, tail) := by
  apply parse_escListF
  have h1 := escList_length l
  simp [List.length_append]
  omega

theorem parseJVal_str (s : String) (tail : List Char) :
    parseJVal ('"' :: (escList s.data ++ '"' :: tail)) = some (JVal.jstr s, tail) := by
  simp [parseJVal, parse_escList, stringMk_data]

theorem dataMk (l : List Char) : (String.mk l).data = l := rfl

theorem parseMembers_one (f : Nat) (k s : String) (rest : List Char) :
    parseMembers (f + 1) ('"' :: (escList k.data ++ '"' :: ':' :: ' ' ::
      ('"' :: (escList s.data ++ '"' :: '\x7d' :: rest)))) =
      some ([(k, JVal.jstr s)], rest) := by
  simp [parseMembers, parse_escList, dropSpaces, parseJVal_str, stringMk_data]

theorem dropSpaces_space (l : List Char) : dropSpaces (' ' :: l) = dropSpaces l := by
  simp [dropSpaces]

theorem dropSpaces_quote (l : List Char) : dropSpaces ('"' :: l) = '"' :: l := by
  simp [dropSpaces]

theorem dropSpaces_digit4 (l : List Char) : dropSpaces ('4' :: l) = '4' :: l := by
  simp [dropSpaces]

theorem parseJVal_404 (rest : List Char) :
    parseJVal ('4' :: '0' :: '4' :: ',' :: rest) = some (JVal.jnum 404, ',' :: rest) := by
  simp [parseJVal, List.takeWhile, List.dropWhile, digitsToNat, digitVal, Char.isDigit]

theorem parseMembers_two (f : Nat) (hf : 1 ≤ f) (m : String) (rest : List Char) :
    parseMembers (f + 1) ('"' :: (escList "code".data ++ '"' :: ':' :: ' ' ::
      ('4' :: '0' :: '4' :: ',' :: ' ' ::
        ('"' :: (escList "message".data ++ '"' :: ':' :: ' ' ::
          ('"' :: (escList m.data ++ '"' :: '\x7d' :: rest))))))) =
      some ([("code", JVal.jnum 404), ("message", JVal.jstr m)], rest) := by
  obtain ⟨g, rfl⟩ : ∃ g, f = g + 1 := ⟨f - 1, by omega⟩
  rw [parseMembers]
  simp only [if_pos rfl, parse_escList, dropSpaces_space, dropSpaces_digit4,
    dropSpaces_quote, parseJVal_404, parseMembers_one g "message" m rest,
    stringMk_data]
  simp

theorem parse_encodeObj_str (k s : String) :
    parseObj (encodeObj [(k, JVal.jstr s)]) = some [(k, JVal.jstr s)] := by
  have hshape : encodeMembers [(k, JVal.jstr s)] =
      '"' :: (escList k.data ++ '"' :: ':' :: ' ' ::
        ('"' :: (escList s.data ++ '"' :: '\x7d' :: []))) := by
    simp [encodeMembers, encodeJVal]
  rw [encodeObj]
  simp only [parseObj, dataMk, hshape]
  rw [parseMembers_one _ k s []]

theorem parse_encodeObj_404 (m : String) :
    parseObj (encodeObj [("code", JVal.jnum 404), ("message", JVal.jstr m)]) =
      some [("code", JVal.jnum 404), ("message", JVal.jstr m)] := by
  have hshape : encodeMembers [("code", JVal.jnum 404), ("message", JVal.jstr m)] =
      '"' :: (escList "code".data ++ '"' :: ':' :: ' ' ::
        ('4' :: '0' :: '4' :: ',' :: ' ' ::
          ('"' :: (escList "message".data ++ '"' :: ':' :: ' ' ::
            ('"' :: (escList m.data ++ '"' :: '\x7d' :: [])))))) := by
    simp [encodeMembers, encodeJVal, show natToChars 404 = ['4', '0', '4'] from by decide]
  rw [encodeObj]
  simp only [parseObj, dataMk, hshape]
  have h2 : 1 ≤ ('"' :: (escList "code".data ++ '"' :: ':' :: ' ' ::
      ('4' :: '0' :: '4' :: ',' :: ' ' ::
        ('"' :: (escList "message".data ++ '"' :: ':' :: ' ' ::
          ('"' :: (escList m.data ++ '"' :: '\x7d' :: [])))))) : List Char).length := by
    simp
  rw [parseMembers_two _ h2 m []]

/-- C1: for every request whose method is GET (do_GET is the GET handler)
and whose path equals exactly "/ip", the dispatcher produces status 200, a
Content-Type header of application/json, and a body that is the JSON
encoding (written to the wire as UTF-8) of the object with exactly one key
ip mapped to the string the client-IP resolver returns for the request. -/
theorem C1_ip_route (r : Request) (h : r.path = "/ip") :
    Ej1a3.do_GET r =
      { status := 200, contentType := "application/json",
        body := encodeObj [("ip", JVal.jstr (Ej1a3.get_client_ip r))] } := by
  simp [Ej1a3.do_GET, h]

/-- Witness for C1 at a concrete request behind a proxy chain. -/
theorem C1_ip_route_witness :
    Ej1a3.do_GET ⟨"/ip", [("X-Forwarded-For", "1.2.3.4, 5.6.7.8")], ("9.9.9.9", 1234)⟩ =
      { status := 200, contentType := "application/json",
        body := "\x7b\"ip\": \"1.2.3.4\"\x7d" } := by
  rw [C1_ip_route ⟨"/ip", [("X-Forwarded-For", "1.2.3.4, 5.6.7.8")], ("9.9.9.9", 1234)⟩ rfl]
  decide

/-- C2 counterexample: the claim names the 1a dispatcher among its code
sources, but at the non-matching path /ip?x=1 (compared verbatim, so it
does not match /ip) that dispatcher produces the body of the object with
the single key error, not the claimed code/message object. -/
theorem C2_counterexample :
    (Ej1a3.do_GET ⟨"/ip?x=1", [], ("1.2.3.4", 80)⟩).status = 404 ∧
    parseObj (Ej1a3.do_GET ⟨"/ip?x=1", [], ("1.2.3.4", 80)⟩).body =
      some [("error", JVal.jstr "Not Found")] ∧
    ¬ (Ej1a3.do_GET ⟨"/ip?x=1", [], ("1.2.3.4", 80)⟩).body =
      encodeObj [("code", JVal.jnum 404),
        ("message", JVal.jstr "Recurso /ip?x=1 no encontrado")] := by
  refine ⟨rfl, by decide, by decide⟩

/-- C2 amended: for every path other than exactly "/ip" (verbatim
comparison, no query-string parsing), the 1b handler fragment produces
status 404, Content-Type application/json and the JSON body with exactly
the keys code mapped to 404 and message mapped to the string Recurso
{path} no encontrado with the verbatim path substituted, while the 1a
dispatcher produces status 404, Content-Type application/json and the
JSON body with exactly the key error mapped to Not Found. -/
theorem C2_amended (p : String) (hs : List (String × String)) (addr : String × Nat)
    (h : ¬ p = "/ip") :
    (Ej1a3.do_GET ⟨p, hs, addr⟩).status = 404 ∧
    (Ej1a3.do_GET ⟨p, hs, addr⟩).contentType = "application/json" ∧
    parseObj (Ej1a3.do_GET ⟨p, hs, addr⟩).body = some [("error", JVal.jstr "Not Found")] ∧
    (Ej1b3.do_GET_else p).status = 404 ∧
    (Ej1b3.do_GET_else p).contentType = "application/json" ∧
    parseObj (Ej1b3.do_GET_else p).body =
      some [("code", JVal.jnum 404),
            ("message", JVal.jstr ("Recurso " ++ p ++ " no encontrado"))] := by
  refine ⟨by simp [Ej1a3.do_GET, h], by simp [Ej1a3.do_GET, h],
    by simp [Ej1a3.do_GET, h, parse_encodeObj_str], rfl, rfl,
    by simp [Ej1b3.do_GET_else, parse_encodeObj_404]⟩

/-- Witness for the amended C2 at the concrete path /api/users. -/
theorem C2_amended_witness :
    (Ej1a3.do_GET ⟨"/api/users", [], ("1.1.1.1", 1)⟩).status = 404 ∧
    (Ej1a3.do_GET ⟨"/api/users", [], ("1.1.1.1", 1)⟩).contentType = "application/json" ∧
    parseObj (Ej1a3.do_GET ⟨"/api/users", [], ("1.1.1.1", 1)⟩).body =
      some [("error", JVal.jstr "Not Found")] ∧
    (Ej1b3.do_GET_else "/api/users").status = 404 ∧
    (Ej1b3.do_GET_else "/api/users").contentType = "application/json" ∧
    parseObj (Ej1b3.do_GET_else "/api/users").body =
      some [("code", JVal.jnum 404),
            ("message", JVal.jstr ("Recurso " ++ "/api/users" ++ " no encontrado"))] :=
  C2_amended "/api/users" [] ("1.1.1.1", 1) (by decide)

/-- C3: the client-IP resolver applies its three sources in order with the
first match winning: a present non-empty X-Forwarded-For yields the first
comma-separated field stripped of surrounding whitespace, otherwise a
present non-empty X-Real-IP is returned verbatim, otherwise the host
component of the transport-level client address (never the port). -/
theorem C3_resolver_order (r : Request) :
    (∀ v, getHeader r.headers "X-Forwarded-For" = some v → ¬ v = "" →
      Ej1a3.get_client_ip r = pyStrip ((pySplit v ',').headD "")) ∧
    ((getHeader r.headers "X-Forwarded-For" = none ∨
      getHeader r.headers "X-Forwarded-For" = some "") →
     ∀ w, getHeader r.headers "X-Real-IP" = some w → ¬ w = "" →
      Ej1a3.get_client_ip r = w) ∧
    ((getHeader r.headers "X-Forwarded-For" = none ∨
      getHeader r.headers "X-Forwarded-For" = some "") →
     (getHeader r.headers "X-Real-IP" = none ∨
      getHeader r.headers "X-Real-IP" = some "") →
      Ej1a3.get_client_ip r = r.clientAddress.1) := by
  refine ⟨?_, ?_, ?_⟩
  · intro v hv hne
    simp [Ej1a3.get_client_ip, hv, truthyOptStr, hne]
  · rintro (h | h) w hw hne <;>
      simp [Ej1a3.get_client_ip, h, hw, truthyOptStr, hne]
  · rintro (h1 | h1) (h2 | h2) <;>
      simp [Ej1a3.get_client_ip, h1, h2, truthyOptStr]

/-- Witness for C3: with both proxy headers present the first
X-Forwarded-For field wins, giving 1.2.3.4 as the specification's
precedence example requires. -/
theorem C3_resolver_order_witness :
    Ej1a3.get_client_ip
      ⟨"/ip", [("X-Forwarded-For", "1.2.3.4, 5.6.7.8"), ("X-Real-IP", "9.9.9.9")],
        ("10.0.0.1", 9)⟩ = "1.2.3.4" := by
  rw [(C3_resolver_order
      ⟨"/ip", [("X-Forwarded-For", "1.2.3.4, 5.6.7.8"), ("X-Real-IP", "9.9.9.9")],
        ("10.0.0.1", 9)⟩).1 "1.2.3.4, 5.6.7.8" (by decide) (by decide)]
  decide

/-- C4 counterexample: the resolved client IP can be the empty string,
for example when X-Forwarded-For is a bare comma, so the 200 body of GET
/ip does not always map ip to a non-empty string. -/
theorem C4_counterexample :
    ¬ (∀ r : Request, r.path = "/ip" →
        ∃ s, ¬ s = "" ∧
          parseObj (Ej1a3.do_GET r).body = some [("ip", JVal.jstr s)]) := by
  intro h
  obtain ⟨s, hne, hp⟩ := h ⟨"/ip", [("X-Forwarded-For", ",")], ("1.2.3.4", 7)⟩ rfl
  have hev : parseObj (Ej1a3.do_GET
      ⟨"/ip", [("X-Forwarded-For", ",")], ("1.2.3.4", 7)⟩).body =
      some [("ip", JVal.jstr "")] := by decide
  rw [hev] at hp
  simp at hp
  exact hne hp.symm

/-- C4 amended: the resolver is total and returns a string, and every
dispatch of GET /ip yields status 200 with a body that decodes as JSON to
the object with exactly the key ip mapped to that (possibly empty)
string. -/
theorem C4_amended (r : Request) (h : r.path = "/ip") :
    (Ej1a3.do_GET r).status = 200 ∧
    parseObj (Ej1a3.do_GET r).body =
      some [("ip", JVal.jstr (Ej1a3.get_client_ip r))] := by
  refine ⟨by simp [Ej1a3.do_GET, h], by simp [Ej1a3.do_GET, h, parse_encodeObj_str]⟩

/-- Witness for the amended C4 at a concrete header-free request. -/
theorem C4_amended_witness :
    (Ej1a3.do_GET ⟨"/ip", [], ("127.0.0.1", 1)⟩).status = 200 ∧
    parseObj (Ej1a3.do_GET ⟨"/ip", [], ("127.0.0.1", 1)⟩).body =
      some [("ip", JVal.jstr (Ej1a3.get_client_ip ⟨"/ip", [], ("127.0.0.1", 1)⟩))] :=
  C4_amended ⟨"/ip", [], ("127.0.0.1", 1)⟩ rfl

/-- C5: every request is answered, and the dispatcher only ever produces
status 200 or status 404; in particular the embedding is a total function,
mirroring that no handler path raises. -/
theorem C5_status_codes (r : Request) :
    (Ej1a3.do_GET r).status = 200 ∨ (Ej1a3.do_GET r).status = 404 := by
  by_cases h : r.path = "/ip" <;> simp [Ej1a3.do_GET, h]

/-- C6: decoding any body the dispatchers produce recovers exactly the
key/value pairs that were serialized, for the 200 ip body, the 1a 404
error body and the 1b 404 code/message body alike. -/
theorem C6_roundtrip (r : Request) (p : String) :
    parseObj (Ej1a3.do_GET r).body =
      some (if r.path = "/ip" then [("ip", JVal.jstr (Ej1a3.get_client_ip r))]
            else [("error", JVal.jstr "Not Found")]) ∧
    parseObj (Ej1b3.do_GET_else p).body =
      some [("code", JVal.jnum 404),
            ("message", JVal.jstr ("Recurso " ++ p ++ " no encontrado"))] := by
  refine ⟨?_, by simp [Ej1b3.do_GET_else, parse_encodeObj_404]⟩
  by_cases h : r.path = "/ip" <;> simp [Ej1a3.do_GET, h, parse_encodeObj_str]

/-- C7: get_user_ip returns the body text exactly when the transport call
returned status 200, returns none for any other status, and converts a
raised transport exception into none instead of propagating it. -/
theorem C7_get_user_ip (result : Except String HttpTextResponse) :
    (∀ resp, result = .ok resp → resp.status_code = 200 →
      Ej1a1.get_user_ip result = some resp.text) ∧
    (∀ resp, result = .ok resp → ¬ resp.status_code = 200 →
      Ej1a1.get_user_ip result = none) ∧
    (∀ e, result = .error e → Ej1a1.get_user_ip result = none) := by
  refine ⟨?_, ?_, ?_⟩
  · intro resp hr h
    subst hr
    simp [Ej1a1.get_user_ip, h]
  · intro resp hr h
    subst hr
    simp [Ej1a1.get_user_ip, h]
  · intro e hr
    subst hr
    simp [Ej1a1.get_user_ip]

/-- Witness for C7 on the three outcome shapes. -/
theorem C7_get_user_ip_witness :
    Ej1a1.get_user_ip (.ok ⟨200, "93.176.145.80"⟩) = some "93.176.145.80" ∧
    Ej1a1.get_user_ip (.ok ⟨503, "oops"⟩) = none ∧
    Ej1a1.get_user_ip (.error "timeout") = none :=
  ⟨(C7_get_user_ip _).1 _ rfl rfl,
   (C7_get_user_ip _).2.1 _ rfl (by decide),
   (C7_get_user_ip _).2.2 _ rfl⟩

theorem find_first_of_prefix {β : Type} (p : β → Bool) :
    ∀ (l1 : List β) (st : β) (l2 : List β), (∀ x ∈ l1, ¬ p x = true) → p st = true →
      (l1 ++ st :: l2).find? p = some st := by
  intro l1
  induction l1 with
  | nil =>
    intro st l2 _ hst
    simp [List.find?, hst]
  | cons a l ih =>
    intro st l2 hall hst
    have ha : ¬ p a = true := hall a (by simp)
    simp only [List.cons_append, List.find?]
    rw [Bool.eq_false_iff.mpr ha]
    exact ih st l2 (fun x hx => hall x (by simp [hx])) hst

/-- C8: get_station_coordinates returns the latitude-longitude pair and
returns none when the record is missing or either coordinate is missing;
create_stations_dataframe returns none when the data object is missing or
has no stations key, and projects a non-empty station list into the frame
with the four fixed columns, one row per station in list order.  The last
conjunct evaluates the failing input of the claim: an empty station list
produces a frame with no columns at all, contradicting the four fixed
columns promised by the claim and by the function docstring. -/
theorem C8_coords_and_frame {α : Type} [DecidableEq α]
    (si : Option (StationInfo α)) (sd : Option (StationsData α)) :
    (si = none → Ej1c2.get_station_coordinates si = none) ∧
    (∀ s, si = some s → (s.lat = none ∨ s.lon = none) →
      Ej1c2.get_station_coordinates si = none) ∧
    (∀ s la lo, si = some s → s.lat = some la → s.lon = some lo →
      Ej1c2.get_station_coordinates si = some (la, lo)) ∧
    (sd = none → Ej1c2.create_stations_dataframe sd = none) ∧
    (∀ d, sd = some d → d.stations = none →
      Ej1c2.create_stations_dataframe sd = none) ∧
    (∀ d l, sd = some d → d.stations = some l → ¬ l = [] →
      Ej1c2.create_stations_dataframe sd = some
        { columns := ["station_id", "latitude", "longitude", "name"],
          rows := l.map (fun st => [cellOfStrOpt st.station_id, cellOfNumOpt st.lat,
            cellOfNumOpt st.lon, cellOfStrOpt st.name]) }) ∧
    Ej1c2.create_stations_dataframe (α := α) (some ⟨some []⟩) =
      some { columns := [], rows := [] } := by
  refine ⟨?_, ?_, ?_, ?_, ?_, ?_, rfl⟩
  · rintro rfl; rfl
  · rintro s rfl (h | h) <;> simp [Ej1c2.get_station_coordinates, h]
  · rintro s la lo rfl hla hlo
    simp [Ej1c2.get_station_coordinates, hla, hlo]
  · rintro rfl; rfl
  · rintro d rfl hst
    simp [Ej1c2.create_stations_dataframe, hst]
  · rintro d l rfl hst hne
    cases l with
    | nil => exact absurd rfl hne
    | cons e es =>
      simp [Ej1c2.create_stations_dataframe, hst, pd_DataFrame_ofRecords,
        Ej1c2.stationRecord]

/-- Witness for C8 at concrete station data with numeric coordinates. -/
theorem C8_coords_and_frame_witness :
    Ej1c2.get_station_coordinates (some (⟨some "1", some 41, some 2, some "A"⟩ :
        StationInfo Nat)) = some (41, 2) ∧
    Ej1c2.create_stations_dataframe
      (some (⟨some [⟨some "1", some 41, some 2, some "A"⟩]⟩ : StationsData Nat)) =
      some
        { columns := ["station_id", "latitude", "longitude", "name"],
          rows := ([(⟨some "1", some 41, some 2, some "A"⟩ : StationInfo Nat)]).map
            (fun st => [cellOfStrOpt st.station_id, cellOfNumOpt st.lat,
              cellOfNumOpt st.lon, cellOfStrOpt st.name]) } :=
  ⟨(C8_coords_and_frame (some ⟨some "1", some 41, some 2, some "A"⟩)
      (some ⟨some [⟨some "1", some 41, some 2, some "A"⟩]⟩)).2.2.1
      _ 41 2 rfl rfl rfl,
   (C8_coords_and_frame (some ⟨some "1", some 41, some 2, some "A"⟩)
      (some ⟨some [⟨some "1", some 41, some 2, some "A"⟩]⟩)).2.2.2.2.2.1
      _ _ rfl rfl (by decide)⟩

/-- C9: get_station_info returns none when the data object is missing,
when the stations entry is missing or empty, or when no record carries
the requested id, and otherwise returns the first record in list order
whose station_id equals the requested id; the embedding is total, so no
exception can escape. -/
theorem C9_get_station_info {α : Type} [DecidableEq α]
    (sd : Option (StationsData α)) (sid : String) :
    (sd = none → Ej1c2.get_station_info sd sid = none) ∧
    (∀ d, sd = some d → d.stations = none → Ej1c2.get_station_info sd sid = none) ∧
    (∀ d, sd = some d → d.stations = some [] → Ej1c2.get_station_info sd sid = none) ∧
    (∀ d l, sd = some d → d.stations = some l →
      (∀ st ∈ l, ¬ st.station_id = some sid) →
      Ej1c2.get_station_info sd sid = none) ∧
    (∀ d l1 st l2, sd = some d → d.stations = some (l1 ++ st :: l2) →
      st.station_id = some sid → (∀ st2 ∈ l1, ¬ st2.station_id = some sid) →
      Ej1c2.get_station_info sd sid = some st) := by
  refine ⟨?_, ?_, ?_, ?_, ?_⟩
  · rintro rfl; rfl
  · rintro d rfl hst
    simp [Ej1c2.get_station_info, hst]
  · rintro d rfl hst
    simp [Ej1c2.get_station_info, hst]
  · rintro d l rfl hst hall
    cases l with
    | nil => simp [Ej1c2.get_station_info, hst]
    | cons a as =>
      simp only [Ej1c2.get_station_info, hst, Option.getD_some, List.isEmpty_cons,
        if_false, Bool.false_eq_true]
      rw [List.find?_eq_none.mpr]
      intro x hx
      simpa using hall x hx
  · rintro d l1 st l2 rfl hst hid hall
    simp only [Ej1c2.get_station_info, hst, Option.getD_some]
    have hne : ((l1 ++ st :: l2).isEmpty) = false := by
      cases l1 <;> simp
    rw [hne]
    simp only [Bool.false_eq_true, if_false]
    apply find_first_of_prefix
    · intro x hx
      simpa using hall x hx
    · simp [hid]

/-- Witness for C9: the second of two stations is found by its id, the
first non-matching record being skipped. -/
theorem C9_get_station_info_witness :
    Ej1c2.get_station_info
      (some (⟨some [⟨some "1", some 10, some 20, some "A"⟩,
                    ⟨some "2", some 30, some 40, some "B"⟩]⟩ : StationsData Nat)) "2" =
      some ⟨some "2", some 30, some 40, some "B"⟩ :=
  (C9_get_station_info
      (some ⟨some [⟨some "1", some 10, some 20, some "A"⟩,
                   ⟨some "2", some 30, some 40, some "B"⟩]⟩) "2").2.2.2.2
    _ [⟨some "1", some 10, some 20, some "A"⟩] ⟨some "2", some 30, some 40, some "B"⟩ []
    rfl rfl rfl (by decide)

/-- C10: crear_dataframe_estaciones maps a missing or empty station list
to an empty frame that still carries the five fixed columns (it never
returns the none sentinel: its result type is a frame, not an optional),
and maps a non-empty list to one row per station in list order with those
same five columns. -/
theorem C10_crear_dataframe {α : Type} (l : List (Estacion α)) :
    Ej1d1.crear_dataframe_estaciones (α := α) none =
      { columns := ["name", "latitude", "longitude", "bikes", "free"], rows := [] } ∧
    Ej1d1.crear_dataframe_estaciones (α := α) (some []) =
      { columns := ["name", "latitude", "longitude", "bikes", "free"], rows := [] } ∧
    (¬ l = [] → Ej1d1.crear_dataframe_estaciones (some l) =
      { columns := ["name", "latitude", "longitude", "bikes", "free"],
        rows := l.map (fun e => [Cell.str e.name, Cell.num e.latitude,
          Cell.num e.longitude, Cell.int e.bikes, Cell.int e.free]) }) := by
  refine ⟨rfl, rfl, ?_⟩
  intro h
  cases l with
  | nil => exact absurd rfl h
  | cons e es =>
    simp [Ej1d1.crear_dataframe_estaciones, pd_DataFrame_ofRecords, Ej1d1.estacionRecord]

/-- Witness for C10 at a concrete one-station list with numeric
coordinates. -/
theorem C10_crear_dataframe_witness :
    Ej1d1.crear_dataframe_estaciones (some [(⟨"A", 41, 2, 5, 7⟩ : Estacion Nat)]) =
      { columns := ["name", "latitude", "longitude", "bikes", "free"],
        rows := [(⟨"A", 41, 2, 5, 7⟩ : Estacion Nat)].map
          (fun e => [Cell.str e.name, Cell.num e.latitude,
            Cell.num e.longitude, Cell.int e.bikes, Cell.int e.free]) } :=
  (C10_crear_dataframe [⟨"A", 41, 2, 5, 7⟩]).2.2 (by decide)
